/-
Verification of the observer binding and dispatch engine of
djangochannelsrestframework (files `observer/generics.py` and `mixins.py`).

The Python source is shallowly embedded: every coroutine becomes a pure
Lean function, external collaborators (permission checks, object lookup,
the reply transport, the retrieval handler) are passed in as environment
records of fallible functions (`Except Exc`), and the side effects the
claims speak about (messages sent, groups joined, the per-connection
subscription table) are made explicit in returned state/trace values.
Parts of the repository that the two source files call but that are not
part of them (`ModelObserver.subscribe/unsubscribe`, `handle_exception`)
are modelled from the specification and marked as such in doc comments.
-/
import Mathlib

set_option autoImplicit false

/-- Exceptions that the embedded Python code can raise or observe. -/
inductive Exc where
  | valueError
  | keyError
  | permissionDenied
  | notFound
  | attributeError
  | unboundLocalError
  | notMember
  | custom (msg : String)
  deriving DecidableEq

/-- Rendering of an exception used when it is reported back to the client
(the error description carried by an error reply). -/
def describeExc : Exc → String
  | Exc.valueError => "ValueError"
  | Exc.keyError => "KeyError"
  | Exc.permissionDenied => "PermissionDenied"
  | Exc.notFound => "NotFound"
  | Exc.attributeError => "AttributeError"
  | Exc.unboundLocalError => "UnboundLocalError"
  | Exc.notMember => "NotAMember"
  | Exc.custom m => m

/-- Plain JSON-like payload data: a list of string key/value fields. -/
def Data : Type := List (String × String)

instance : DecidableEq Data := by
  unfold Data
  infer_instance

/-- Python `dict` assignment `d[k] = v`: overwrite the entry for `k` when one
exists, otherwise append a new entry.  Used both for the per-connection
subscription table and for the class namespace in the metaclass. -/
def dictInsert {κ α : Type} [DecidableEq κ] : List (κ × α) → κ → α → List (κ × α)
  | [], k, v => [(k, v)]
  | (k', v') :: t, k, v =>
    if k' = k then (k, v) :: t else (k', v') :: dictInsert t k v

/-- Python `d.get(k)` / `d[k]` lookup: first entry with the given key. -/
def dictGet {κ α : Type} [DecidableEq κ] : List (κ × α) → κ → Option α
  | [], _ => none
  | (k', v') :: t, k => if k' = k then some v' else dictGet t k

/-- Python `del d[k]`: remove the entry for `k` (the caller checks presence;
`del` on a missing key raises `KeyError`, modelled at the call site). -/
def dictDel {κ α : Type} [DecidableEq κ] : List (κ × α) → κ → List (κ × α)
  | [], _ => []
  | (k', v') :: t, k => if k' = k then t else (k', v') :: dictDel t k

/-- Number of entries stored under a key. -/
def dictCountKey {κ α : Type} [DecidableEq κ] (t : List (κ × α)) (k : κ) : Nat :=
  (t.filter (fun p => p.1 = k)).length

theorem dictGet_insert_self {κ α : Type} [DecidableEq κ]
    (t : List (κ × α)) (k : κ) (v : α) : dictGet (dictInsert t k v) k = some v := by
  induction t with
  | nil => simp [dictInsert, dictGet]
  | cons hd tl ih =>
    by_cases h : hd.1 = k
    · simp [dictInsert, dictGet, h]
    · simp [dictInsert, dictGet, h, ih]

theorem dictGet_insert_ne {κ α : Type} [DecidableEq κ]
    (t : List (κ × α)) (k k' : κ) (v : α) (h : k' ≠ k) :
    dictGet (dictInsert t k v) k' = dictGet t k' := by
  induction t with
  | nil => simp [dictInsert, dictGet, Ne.symm h]
  | cons hd tl ih =>
    obtain ⟨k₀, v₀⟩ := hd
    by_cases hh : k₀ = k
    · subst hh
      simp [dictInsert, dictGet, Ne.symm h]
    · by_cases hk : k₀ = k'
      · subst hk
        simp [dictInsert, dictGet, hh]
      · simp [dictInsert, dictGet, hh, hk, ih]

theorem dictCountKey_cons {κ α : Type} [DecidableEq κ]
    (k₀ : κ) (v₀ : α) (t : List (κ × α)) (k : κ) :
    dictCountKey ((k₀, v₀) :: t) k
      = (if k₀ = k then 1 else 0) + dictCountKey t k := by
  by_cases h : k₀ = k
  · simp [dictCountKey, List.filter_cons, h]
    omega
  · simp [dictCountKey, List.filter_cons, h]

theorem dictCountKey_insert {κ α : Type} [DecidableEq κ]
    (t : List (κ × α)) (k : κ) (v : α) (h : dictCountKey t k ≤ 1) :
    dictCountKey (dictInsert t k v) k = 1 := by
  induction t with
  | nil => simp [dictInsert, dictCountKey]
  | cons hd tl ih =>
    obtain ⟨k₀, v₀⟩ := hd
    rw [dictCountKey_cons] at h
    by_cases hh : k₀ = k
    · rw [if_pos hh] at h
      have h0 : dictCountKey tl k = 0 := by omega
      simp [dictInsert, hh, dictCountKey_cons, h0]
    · rw [if_neg hh] at h
      simp only [Nat.zero_add] at h
      simp [dictInsert, hh, dictCountKey_cons, ih h]

/-- A change-event reply or error reply sent to the client over the
connection.  `reply` models `self.reply(action=..., request_id=..., data=...,
status=...)`; `errs` models the error reply produced by `handle_exception`.
`handle_exception` is not part of the two source files; it is modelled from
the spec: it converts the caught exception into a client-visible error reply
carrying the action, the request id and an error description. -/
inductive Msg where
  | reply (action : String) (request_id : Option String) (data : Data) (status : Nat)
  | errs (action : String) (request_id : Option String) (errors : String)
  deriving DecidableEq

/-- The request id carried by a message (always echoed on both reply kinds). -/
def msgReqId : Msg → Option String
  | Msg.reply _ rid _ _ => rid
  | Msg.errs _ rid _ => rid

/-- The Python value returned by `self.retrieve(...)`: either a
`(data, status)` tuple or any non-tuple value (`handle_observed_action`
checks `isinstance(response, tuple)`). -/
inductive RetrieveResponse where
  | tuple (data : Data) (status : Nat)
  | nonTuple
  deriving DecidableEq

/-- External collaborators of `handle_observed_action`:
`check_permissions` (may raise), the reply transport (`some e` = the send
raised `e`, `none` = sent), and the bound retrieval handler `self.retrieve`
(the `RetrieveModelMixin.retrieve` action, which performs `get_object`
and serialization internally and may raise). -/
structure DispatchEnv where
  checkPermissions : String → Data → Except Exc Unit
  replySend : Msg → Option Exc
  retrieve : Option String → String → Data → Except Exc RetrieveResponse

/-- Trace of one dispatch: the messages actually sent, the exception
escaping the modelled block (if any), and whether `self.retrieve` was
invoked. -/
structure DispatchTrace where
  sent : List Msg
  exc : Option Exc
  retrieveCalled : Bool
  deriving DecidableEq

/-- The `try:` block of `handle_observed_action` (generics.py lines 152-169):
check permissions; if `action == 'delete'` reply with the event's kwargs and
status 204 and return; otherwise call `self.retrieve(request_id, action,
**kwargs)` and reply with `(data, status)` only when the response is a
tuple. -/
def observedActionTryBody (env : DispatchEnv) (a : String) (rid : Option String)
    (kw : Data) : DispatchTrace :=
  match env.checkPermissions a kw with
  | Except.error e => ⟨[], some e, false⟩
  | Except.ok _ =>
    if a = "delete" then
      let m := Msg.reply a rid kw 204
      match env.replySend m with
      | some e => ⟨[], some e, false⟩
      | none => ⟨[m], none, false⟩
    else
      match env.retrieve rid a kw with
      | Except.error e => ⟨[], some e, true⟩
      | Except.ok (RetrieveResponse.tuple d s) =>
        let m := Msg.reply a rid d s
        match env.replySend m with
        | some e => ⟨[], some e, true⟩
        | none => ⟨[m], none, true⟩
      | Except.ok RetrieveResponse.nonTuple => ⟨[], none, true⟩

/-- `handle_observed_action` (generics.py lines 147-173): run the try block;
`except Exception as exc:` hands the exception to `self.handle_exception(exc,
action=action, request_id=request_id)`, which (modelled from the spec) sends
an error reply carrying the action, the request id and the description of the
exception.  No exception escapes the handler. -/
def handleObservedAction (env : DispatchEnv) (a : String) (rid : Option String)
    (kw : Data) : DispatchTrace :=
  let t := observedActionTryBody env a rid kw
  match t.exc with
  | none => t
  | some e => ⟨t.sent ++ [Msg.errs a rid (describeExc e)], none, t.retrieveCalled⟩

/-- A model instance as the two source files see it: a primary key, an
optional `uuid` attribute (the secondary identifier; `none` means the
attribute is absent, so reading it raises AttributeError), and the metadata
used for the `__model` annotation. -/
structure Instance where
  pk : String
  uuid : Option String
  app_label : String
  object_name : String

/-- The bound observer's configuration relevant to group-name computation.
`group_name_pfx` models the observer's `group_name_prefix` attribute.
`group_names_func` models the consumer-declared `get_group_names` strategy
override; modelled from the spec: `ModelObserver`'s constructor (not in the
two source files) stores it as an attribute exactly when the consumer
declared one, so the source's `hasattr(self, 'group_names_func')` holds
exactly when this field is `some`. -/
structure ObserverState where
  group_name_pfx : String
  group_names_func : Option (String → Instance → List String)

/-- The groups generator registered on `handle_instance_change` via
`@handle_instance_change.groups` (generics.py lines 138-145): a declared
`group_names_func` fully replaces the default (its yielded names are
returned and the default is never reached); otherwise yield the single name
built from the observer's group-name prefix and `instance.uuid`.  Reading
`instance.uuid` on an instance without that attribute raises
AttributeError; there is no fallback to the primary key. -/
def instanceGroupNames (obs : ObserverState) (inst : Instance) :
    Except Exc (List String) :=
  match obs.group_names_func with
  | some f => Except.ok (f obs.group_name_pfx inst)
  | none =>
    match inst.uuid with
    | some u => Except.ok [obs.group_name_pfx ++ "-" ++ u]
    | none => Except.error Exc.attributeError

/-- Per-connection state: the subscription table `self.subscribed_requests`
(a Python dict keyed by the class's bound observer attribute, represented by
its attribute name) and the broker group memberships this connection
holds. -/
structure ConnState where
  subscribed_requests : List (String × String)
  joinedGroups : List String
  deriving DecidableEq

/-- The key under which `subscribe_instance` records the request id:
`self.__class__.handle_instance_change`, the class's bound observer. -/
def observerKey : String := "handle_instance_change"

/-- Modelled from the spec: `ModelObserver.subscribe` (not in the two source
files) computes the group names via the observer's strategy and joins the
connection to each computed group (broker group-add; joining is
idempotent per (connection, group) pair). -/
def observerSubscribe (obs : ObserverState) (st : ConnState) (inst : Instance) :
    ConnState × Option Exc :=
  match instanceGroupNames obs inst with
  | Except.error e => (st, some e)
  | Except.ok names =>
    ({ st with joinedGroups :=
        names.foldl (fun g n => if n ∈ g then g else g ++ [n]) st.joinedGroups },
     none)

/-- Leave the listed groups in turn.  Modelled from the spec: leaving
fails (reported, not fatal) if the connection was not a member of the
group. -/
def leaveGroups : ConnState → List String → ConnState × Option Exc
  | st, [] => (st, none)
  | st, n :: ns =>
    if n ∈ st.joinedGroups then
      leaveGroups { st with joinedGroups := st.joinedGroups.erase n } ns
    else
      (st, some Exc.notMember)

/-- Modelled from the spec: `ModelObserver.unsubscribe` (not in the two
source files) computes the same group names and leaves each group. -/
def observerUnsubscribe (obs : ObserverState) (st : ConnState) (inst : Instance) :
    ConnState × Option Exc :=
  match instanceGroupNames obs inst with
  | Except.error e => (st, some e)
  | Except.ok names => leaveGroups st names

/-- External collaborator of the subscribe/unsubscribe actions:
`self.get_object(**kwargs)` (entity lookup; raises NotFound on a bad
selector). -/
structure ConnEnv where
  get_object : Data → Except Exc Instance

/-- `subscribe_instance` (generics.py lines 104-114): raise ValueError when
`request_id` is `None` (before anything else); look the instance up; ask the
bound observer to subscribe it (joining its groups); then record the request
id in the subscription table under the observer key, overwriting any prior
entry; return `(None, 201)`.  An exception at any step propagates, leaving
the state reached so far. -/
def subscribe_instance (env : ConnEnv) (obs : ObserverState) (st : ConnState)
    (request_id : Option String) (kw : Data) :
    ConnState × Except Exc (Option Data × Nat) :=
  match request_id with
  | none => (st, Except.error Exc.valueError)
  | some rid =>
    match env.get_object kw with
    | Except.error e => (st, Except.error e)
    | Except.ok inst =>
      match observerSubscribe obs st inst with
      | (st₁, some e) => (st₁, Except.error e)
      | (st₁, none) =>
        let tbl := dictInsert st₁.subscribed_requests observerKey rid
        ({ st₁ with subscribed_requests := tbl }, Except.ok (none, 201))

/-- `unsubscribe_instance` (generics.py lines 116-125): raise ValueError when
`request_id` is `None`; look the instance up; ask the bound observer to
unsubscribe it (leaving its groups); only then `del` the table entry (a
raise from the leave step skips the deletion; `del` on a missing key raises
KeyError); return `(None, 204)`. -/
def unsubscribe_instance (env : ConnEnv) (obs : ObserverState) (st : ConnState)
    (request_id : Option String) (kw : Data) :
    ConnState × Except Exc (Option Data × Nat) :=
  match request_id with
  | none => (st, Except.error Exc.valueError)
  | some _ =>
    match env.get_object kw with
    | Except.error e => (st, Except.error e)
    | Except.ok inst =>
      match observerUnsubscribe obs st inst with
      | (st₁, some e) => (st₁, Except.error e)
      | (st₁, none) =>
        match dictGet st₁.subscribed_requests observerKey with
        | none => (st₁, Except.error Exc.keyError)
        | some _ =>
          let tbl := dictDel st₁.subscribed_requests observerKey
          ({ st₁ with subscribed_requests := tbl }, Except.ok (none, 204))

/-- A raw broadcast change event as delivered to the observer handler: the
transport envelope tag `type`, the `action` string, and the remaining fields
(entity payload / addressing kwargs). -/
structure ChangeMessage where
  typeTag : String
  action : String
  body : Data

/-- The observer handler `handle_instance_change` (generics.py lines
127-136): pop `action` and `type` from the message and dispatch the rest via
`handle_observed_action`, with the request id currently recorded in the
subscription table for this observer
(`self.subscribed_requests.get(self.__class__.handle_instance_change)`). -/
def handleInstanceChange (denv : DispatchEnv) (st : ConnState)
    (msg : ChangeMessage) : DispatchTrace :=
  handleObservedAction denv msg.action
    (dictGet st.subscribed_requests observerKey) msg.body

/-- A Python attribute value, abstracted to a name; `none` is Python
`None`. -/
abbrev PyVal : Type := Option String

/-- The attributes of a base class (as seen via `getattr`/`dir`) that the
observer metaclass consults.  For each attribute, `none` means the class
lacks the attribute (so `getattr` with a default keeps the default); `some
v` means `getattr` yields the Python value `v` (where `v = none` is Python
`None`).  `observers` lists the attribute names on the class that are still
unbound `_GenericModelObserver` descriptors (a descriptor already bound by
the base's own construction is a `ModelObserver` and is skipped by the
`isinstance` check). -/
structure ClassAttrs where
  group_name_pfx : Option PyVal
  get_group_names : Option PyVal
  serializer_class : Option PyVal
  stream : Option PyVal
  observers : List String

/-- The namespace of the class under construction.  `queryset` is `some
model` when the namespace declares a queryset over that model class (`none`
covers both an absent and a `None` queryset, which the source treats
alike). -/
structure ClassNamespace where
  queryset : Option String
  group_name_pfx : Option PyVal
  get_group_names : Option PyVal
  serializer_class : Option PyVal
  stream : Option PyVal
  observers : List String

/-- A `ModelObserver` produced by `_GenericModelObserver.bind_to_model`: the
model class plus the four resolved binding inputs.  The descriptor's own
fluent `groups`/`serializer` overrides ride along unchanged with the
descriptor itself (they are re-applied verbatim on every bind), so they are
not part of the resolution state. -/
structure BoundObserver where
  model_cls : String
  group_name_pfx : PyVal
  group_names_func : PyVal
  serializer_class : PyVal
  stream : PyVal
  deriving DecidableEq

/-- The four binding inputs being resolved while the metaclass walks the
bases. -/
structure ResolvedInputs where
  pfx : PyVal
  gnf : PyVal
  ser : PyVal
  strm : PyVal
  deriving DecidableEq

/-- Starting values (generics.py lines 54-57): `namespace.get(name,
default)` with default `''` for the group-name prefix and `None` for the
other three. -/
def startingInputs (ns : ClassNamespace) : ResolvedInputs :=
  { pfx := ns.group_name_pfx.getD (some "")
    gnf := ns.get_group_names.getD none
    ser := ns.serializer_class.getD none
    strm := ns.stream.getD none }

/-- One step of the base walk (generics.py lines 68-78): for the prefix, the
group-names function and the stream, `getattr(base, name, current)` keeps
the current value only when the base lacks the attribute — a base that has
the attribute overwrites the current value unconditionally.  The serializer
additionally keeps the current value when the base's value is `None`
(`if new_serializer_class is not None`). -/
def stepBase (cur : ResolvedInputs) (b : ClassAttrs) : ResolvedInputs :=
  { pfx := b.group_name_pfx.getD cur.pfx
    gnf := b.get_group_names.getD cur.gnf
    ser :=
      let newSer := b.serializer_class.getD cur.ser
      if newSer.isSome then newSer else cur.ser
    strm := b.stream.getD cur.strm }

/-- Bind every listed descriptor name with the given resolved inputs,
overwriting the namespace entry (`namespace[attr_name] =
attr.bind_to_model(...)`). -/
def bindAll (model : String) (cur : ResolvedInputs) (names : List String)
    (acc : List (String × BoundObserver)) : List (String × BoundObserver) :=
  names.foldl
    (fun a n => dictInsert a n ⟨model, cur.pfx, cur.gnf, cur.ser, cur.strm⟩) acc

/-- `ObserverAPIConsumerMetaclass.__new__` (generics.py lines 48-90),
restricted to the bindings it writes into the namespace: when the namespace
declares a queryset, bind the namespace's own descriptors with the starting
values, then walk the bases in declaration order, updating the resolved
inputs per `stepBase` and re-binding every descriptor found on each base
with the values resolved up to and including that base.  Without a queryset
nothing is bound. -/
def metaclassNew (ns : ClassNamespace) (bases : List ClassAttrs) :
    List (String × BoundObserver) :=
  match ns.queryset with
  | none => []
  | some model =>
    let start := startingInputs ns
    (bases.foldl
      (fun (p : ResolvedInputs × List (String × BoundObserver)) b =>
        let cur := stepBase p.1 b
        (cur, bindAll model cur b.observers p.2))
      (start, bindAll model start ns.observers [])).2

/-- External collaborators of `DeleteModelMixin.delete`: entity lookup and
the serializer factory (whose `.data` rendering is returned directly). -/
structure MixinEnv where
  get_object : Data → Except Exc Instance
  get_serializer : Instance → Data → Data → Except Exc Data

/-- Trace of one `delete` action call: its outcome and whether
`instance.delete()` was reached. -/
structure DeleteTrace where
  result : Except Exc (Data × Nat)
  instanceDeleted : Bool

/-- Whether an `Except` value is a success. -/
def exceptIsOk {ε α : Type} : Except ε α → Bool
  | Except.ok _ => true
  | Except.error _ => false

/-- `DeleteModelMixin.delete` (mixins.py lines 107-126).  The body passes
the local name `data` to the `get_serializer` call, but `data` is first
assigned only later in the body (`data = serializer.data`), which makes it a
local variable that is still unbound at that read: Python raises
UnboundLocalError while evaluating the call's arguments, before
`get_serializer`, the annotations and `instance.delete()` are reached.  The
unreachable remainder of the body is kept in the dead `some` branch. -/
def DeleteModelMixin_delete (env : MixinEnv) (kw : Data) : DeleteTrace :=
  match env.get_object kw with
  | Except.error e => ⟨Except.error e, false⟩
  | Except.ok inst =>
    let dataLocal : Option Data := none
    match dataLocal with
    | none => ⟨Except.error Exc.unboundLocalError, false⟩
    | some d =>
      match env.get_serializer inst d kw with
      | Except.error e => ⟨Except.error e, false⟩
      | Except.ok serData =>
        let withUuid :=
          match inst.uuid with
          | some u => dictInsert serData "__uuid" u
          | none => serData
        let withPk := dictInsert withUuid "__pk" inst.pk
        let annotated := dictInsert withPk "__model"
          (inst.app_label.toLower ++ "." ++ inst.object_name.toLower)
        ⟨Except.ok (annotated, 200), true⟩

theorem leaveGroups_table (ns : List String) (st : ConnState) :
    (leaveGroups st ns).1.subscribed_requests = st.subscribed_requests := by
  induction ns generalizing st with
  | nil => rfl
  | cons n t ih =>
    unfold leaveGroups
    by_cases h : n ∈ st.joinedGroups <;> simp [h, ih]

theorem observerUnsubscribe_table (obs : ObserverState) (st : ConnState)
    (inst : Instance) :
    (observerUnsubscribe obs st inst).1.subscribed_requests
      = st.subscribed_requests := by
  unfold observerUnsubscribe
  rcases h : instanceGroupNames obs inst with e | names
  · rfl
  · simp [leaveGroups_table]

theorem dictCountKey_zero_get {κ α : Type} [DecidableEq κ]
    (t : List (κ × α)) (k : κ) (h : dictCountKey t k = 0) :
    dictGet t k = none := by
  induction t with
  | nil => rfl
  | cons hd tl ih =>
    obtain ⟨k₀, v₀⟩ := hd
    rw [dictCountKey_cons] at h
    by_cases hh : k₀ = k
    · rw [if_pos hh] at h
      omega
    · rw [if_neg hh] at h
      simp only [Nat.zero_add] at h
      simp [dictGet, hh, ih h]

theorem dictGet_del_self {κ α : Type} [DecidableEq κ]
    (t : List (κ × α)) (k : κ) (h : dictCountKey t k ≤ 1) :
    dictGet (dictDel t k) k = none := by
  induction t with
  | nil => rfl
  | cons hd tl ih =>
    obtain ⟨k₀, v₀⟩ := hd
    rw [dictCountKey_cons] at h
    by_cases hh : k₀ = k
    · rw [if_pos hh] at h
      have h0 : dictCountKey tl k = 0 := by omega
      simp [dictDel, hh, dictCountKey_zero_get tl k h0]
    · rw [if_neg hh] at h
      simp only [Nat.zero_add] at h
      simp [dictDel, dictGet, hh, ih h]

theorem bindAll_dictGet (model : String) (cur : ResolvedInputs)
    (names : List String) (acc : List (String × BoundObserver)) (n : String) :
    dictGet (bindAll model cur names acc) n
      = if n ∈ names then some ⟨model, cur.pfx, cur.gnf, cur.ser, cur.strm⟩
        else dictGet acc n := by
  induction names generalizing acc with
  | nil => simp [bindAll]
  | cons h t ih =>
    have e : bindAll model cur (h :: t) acc
        = bindAll model cur t
            (dictInsert acc h ⟨model, cur.pfx, cur.gnf, cur.ser, cur.strm⟩) := rfl
    rw [e, ih]
    by_cases hn : n ∈ t
    · simp [hn, List.mem_cons]
    · by_cases hh : n = h
      · subst hh
        simp [hn, dictGet_insert_self]
      · simp [hn, hh, dictGet_insert_ne acc h n _ hh]

theorem handleObservedAction_sent_rid (env : DispatchEnv) (a : String)
    (rid : Option String) (kw : Data) (m : Msg)
    (hm : m ∈ (handleObservedAction env a rid kw).sent) : msgReqId m = rid := by
  by_cases hd : a = "delete"
  · subst hd
    cases hcp : env.checkPermissions "delete" kw with
    | error e =>
      simp [handleObservedAction, observedActionTryBody, hcp] at hm
      simp [hm, msgReqId]
    | ok u =>
      cases hrs : env.replySend (Msg.reply "delete" rid kw 204) with
      | none =>
        simp [handleObservedAction, observedActionTryBody, hcp, hrs] at hm
        simp [hm, msgReqId]
      | some e =>
        simp [handleObservedAction, observedActionTryBody, hcp, hrs] at hm
        simp [hm, msgReqId]
  · cases hcp : env.checkPermissions a kw with
    | error e =>
      simp [handleObservedAction, observedActionTryBody, hcp] at hm
      simp [hm, msgReqId]
    | ok u =>
      cases hrt : env.retrieve rid a kw with
      | error e =>
        simp [handleObservedAction, observedActionTryBody, hcp, hd, hrt] at hm
        simp [hm, msgReqId]
      | ok resp =>
        cases resp with
        | nonTuple =>
          simp [handleObservedAction, observedActionTryBody, hcp, hd, hrt] at hm
        | tuple d s =>
          cases hrs : env.replySend (Msg.reply a rid d s) with
          | none =>
            simp [handleObservedAction, observedActionTryBody,
              hcp, hd, hrt, hrs] at hm
            simp [hm, msgReqId]
          | some e =>
            simp [handleObservedAction, observedActionTryBody,
              hcp, hd, hrt, hrs] at hm
            simp [hm, msgReqId]

/-- Claim C2: for every dispatched change event whose action is the deleted
action (the dispatcher's `'delete'` literal), `handle_observed_action` never
invokes the retrieval path, and — when the permission check passes and the
transport send succeeds — it replies exactly once, with the event's payload
and no-content status 204. -/
theorem C2_delete_short_circuit (env : DispatchEnv) (rid : Option String)
    (kw : Data) :
    (handleObservedAction env "delete" rid kw).retrieveCalled = false
    ∧ (env.checkPermissions "delete" kw = Except.ok () →
        env.replySend (Msg.reply "delete" rid kw 204) = none →
        handleObservedAction env "delete" rid kw
          = ⟨[Msg.reply "delete" rid kw 204], none, false⟩) := by
  constructor
  · cases hcp : env.checkPermissions "delete" kw with
    | error e => simp [handleObservedAction, observedActionTryBody, hcp]
    | ok u =>
      cases hrs : env.replySend (Msg.reply "delete" rid kw 204) with
      | none => simp [handleObservedAction, observedActionTryBody, hcp, hrs]
      | some e => simp [handleObservedAction, observedActionTryBody, hcp, hrs]
  · intro hcp hrs
    simp [handleObservedAction, observedActionTryBody, hcp, hrs]

/-- A dispatch environment in which every collaborator succeeds and
retrieval returns a `(data, status)` tuple. -/
def denvTuple : DispatchEnv :=
  { checkPermissions := fun _ _ => Except.ok ()
    replySend := fun _ => none
    retrieve := fun _ _ _ =>
      Except.ok (RetrieveResponse.tuple [("k", "v")] 200) }

/-- Claim C2 witness at a concrete deleted-action dispatch. -/
theorem C2_delete_short_circuit_witness :
    (handleObservedAction denvTuple "delete" (some "r1")
        [("pk", "1")]).retrieveCalled = false
    ∧ handleObservedAction denvTuple "delete" (some "r1") [("pk", "1")]
        = ⟨[Msg.reply "delete" (some "r1") [("pk", "1")] 204], none, false⟩ :=
  ⟨(C2_delete_short_circuit denvTuple (some "r1") [("pk", "1")]).1,
   (C2_delete_short_circuit denvTuple (some "r1") [("pk", "1")]).2 rfl rfl⟩

/-- Claim C5: every exception raised by the permission check, by the
delete-branch reply send, by the retrieval step, or by the send of the
retrieved reply is caught at the top of the dispatch (the trace's escaping
exception is always `none`) and converted into a client-visible error reply
carrying the action, the request id and the error description. -/
theorem C5_exceptions_caught (env : DispatchEnv) (a : String)
    (rid : Option String) (kw : Data) :
    (handleObservedAction env a rid kw).exc = none
    ∧ (∀ e, env.checkPermissions a kw = Except.error e →
        handleObservedAction env a rid kw
          = ⟨[Msg.errs a rid (describeExc e)], none, false⟩)
    ∧ (∀ e, a = "delete" → env.checkPermissions a kw = Except.ok () →
        env.replySend (Msg.reply a rid kw 204) = some e →
        handleObservedAction env a rid kw
          = ⟨[Msg.errs a rid (describeExc e)], none, false⟩)
    ∧ (∀ e, a ≠ "delete" → env.checkPermissions a kw = Except.ok () →
        env.retrieve rid a kw = Except.error e →
        handleObservedAction env a rid kw
          = ⟨[Msg.errs a rid (describeExc e)], none, true⟩)
    ∧ (∀ e d s, a ≠ "delete" → env.checkPermissions a kw = Except.ok () →
        env.retrieve rid a kw = Except.ok (RetrieveResponse.tuple d s) →
        env.replySend (Msg.reply a rid d s) = some e →
        handleObservedAction env a rid kw
          = ⟨[Msg.errs a rid (describeExc e)], none, true⟩) := by
  refine ⟨?_, ?_, ?_, ?_, ?_⟩
  · by_cases hd : a = "delete"
    · subst hd
      cases hcp : env.checkPermissions "delete" kw with
      | error e => simp [handleObservedAction, observedActionTryBody, hcp]
      | ok u =>
        cases hrs : env.replySend (Msg.reply "delete" rid kw 204) with
        | none => simp [handleObservedAction, observedActionTryBody, hcp, hrs]
        | some e => simp [handleObservedAction, observedActionTryBody, hcp, hrs]
    · cases hcp : env.checkPermissions a kw with
      | error e => simp [handleObservedAction, observedActionTryBody, hcp]
      | ok u =>
        cases hrt : env.retrieve rid a kw with
        | error e => simp [handleObservedAction, observedActionTryBody, hcp, hd, hrt]
        | ok resp =>
          cases resp with
          | nonTuple =>
            simp [handleObservedAction, observedActionTryBody, hcp, hd, hrt]
          | tuple d s =>
            cases hrs : env.replySend (Msg.reply a rid d s) with
            | none =>
              simp [handleObservedAction, observedActionTryBody, hcp, hd, hrt, hrs]
            | some e =>
              simp [handleObservedAction, observedActionTryBody, hcp, hd, hrt, hrs]
  · intro e hcp
    simp [handleObservedAction, observedActionTryBody, hcp]
  · intro e hd hcp hrs
    subst hd
    simp [handleObservedAction, observedActionTryBody, hcp, hrs]
  · intro e hd hcp hrt
    simp [handleObservedAction, observedActionTryBody, hcp, hd, hrt]
  · intro e d s hd hcp hrt hrs
    simp [handleObservedAction, observedActionTryBody, hcp, hd, hrt, hrs]

/-- A dispatch environment whose permission check raises. -/
def denvPermRaise : DispatchEnv :=
  { checkPermissions := fun _ _ => Except.error (Exc.custom "boom")
    replySend := fun _ => none
    retrieve := fun _ _ _ => Except.ok RetrieveResponse.nonTuple }

/-- Claim C5 witness at a concrete raising permission check. -/
theorem C5_exceptions_caught_witness :
    (handleObservedAction denvPermRaise "update" (some "r7") []).exc = none
    ∧ handleObservedAction denvPermRaise "update" (some "r7") []
        = ⟨[Msg.errs "update" (some "r7") "boom"], none, false⟩ :=
  ⟨(C5_exceptions_caught denvPermRaise "update" (some "r7") []).1,
   (C5_exceptions_caught denvPermRaise "update" (some "r7") []).2.1
     (Exc.custom "boom") rfl⟩

/-- Claim C6: when the permission check denies (raises PermissionDenied),
`handle_observed_action` produces exactly one error reply and stops; the
retrieval path (which performs `get_object` and serialization) is never
entered. -/
theorem C6_permission_denied (env : DispatchEnv) (a : String)
    (rid : Option String) (kw : Data)
    (h : env.checkPermissions a kw = Except.error Exc.permissionDenied) :
    handleObservedAction env a rid kw
      = ⟨[Msg.errs a rid (describeExc Exc.permissionDenied)], none, false⟩ := by
  simp [handleObservedAction, observedActionTryBody, h]

/-- A dispatch environment whose permission check always denies. -/
def denvDeny : DispatchEnv :=
  { checkPermissions := fun _ _ => Except.error Exc.permissionDenied
    replySend := fun _ => none
    retrieve := fun _ _ _ =>
      Except.ok (RetrieveResponse.tuple [("k", "v")] 200) }

/-- Claim C6 witness at a concrete denied dispatch. -/
theorem C6_permission_denied_witness :
    handleObservedAction denvDeny "update" (some "r2") [("pk", "1")]
      = ⟨[Msg.errs "update" (some "r2") "PermissionDenied"], none, false⟩ :=
  C6_permission_denied denvDeny "update" (some "r2") [("pk", "1")] rfl

/-- Claim C10: for a dispatched non-delete (created/updated) change event
whose retrieval returns a non-tuple value, `handle_observed_action` sends no
reply at all and raises no error — the event is silently dropped — while a
tuple response produces the reply built from it. -/
theorem C10_non_tuple_dropped (env : DispatchEnv) (a : String)
    (rid : Option String) (kw : Data)
    (hd : a ≠ "delete") (hp : env.checkPermissions a kw = Except.ok ()) :
    (env.retrieve rid a kw = Except.ok RetrieveResponse.nonTuple →
      handleObservedAction env a rid kw = ⟨[], none, true⟩)
    ∧ (∀ d s, env.retrieve rid a kw = Except.ok (RetrieveResponse.tuple d s) →
        env.replySend (Msg.reply a rid d s) = none →
        handleObservedAction env a rid kw
          = ⟨[Msg.reply a rid d s], none, true⟩) := by
  constructor
  · intro hrt
    simp [handleObservedAction, observedActionTryBody, hp, hd, hrt]
  · intro d s hrt hrs
    simp [handleObservedAction, observedActionTryBody, hp, hd, hrt, hrs]

/-- A dispatch environment whose retrieval handler returns a non-tuple. -/
def denvNonTuple : DispatchEnv :=
  { checkPermissions := fun _ _ => Except.ok ()
    replySend := fun _ => none
    retrieve := fun _ _ _ => Except.ok RetrieveResponse.nonTuple }

/-- Claim C10 witness: a concrete non-tuple retrieval is silently dropped
and a concrete tuple retrieval is replied. -/
theorem C10_non_tuple_dropped_witness :
    handleObservedAction denvNonTuple "update" (some "r3") [] = ⟨[], none, true⟩
    ∧ handleObservedAction denvTuple "update" (some "r3") []
        = ⟨[Msg.reply "update" (some "r3") [("k", "v")] 200], none, true⟩ :=
  ⟨(C10_non_tuple_dropped denvNonTuple "update" (some "r3") []
      (by decide) rfl).1 rfl,
   (C10_non_tuple_dropped denvTuple "update" (some "r3") []
      (by decide) rfl).2 [("k", "v")] 200 rfl rfl⟩

/-- Claim C7: calling `subscribe_instance` or `unsubscribe_instance` with a
missing (`None`) request id raises ValueError before any side effect: the
returned state is the unchanged input state (no group joined or left, table
untouched), and — since the result does not depend on the environment — no
entity lookup is performed. -/
theorem C7_missing_request_id (cenv : ConnEnv) (obs : ObserverState)
    (st : ConnState) (kw : Data) :
    subscribe_instance cenv obs st none kw = (st, Except.error Exc.valueError)
    ∧ unsubscribe_instance cenv obs st none kw
        = (st, Except.error Exc.valueError) :=
  ⟨rfl, rfl⟩

/-- A concrete instance carrying a uuid. -/
def instA : Instance :=
  { pk := "1", uuid := some "u1", app_label := "app", object_name := "item" }

/-- A concrete instance without a uuid attribute. -/
def instNoUuid : Instance :=
  { pk := "5", uuid := none, app_label := "app", object_name := "item" }

/-- A concrete bound observer with prefix "items" and no group-name
override. -/
def obsA : ObserverState :=
  { group_name_pfx := "items", group_names_func := none }

/-- A connection environment whose entity lookup returns `instA`. -/
def cenvOk : ConnEnv := { get_object := fun _ => Except.ok instA }

/-- The fresh per-connection state (`self.subscribed_requests = {}`). -/
def stEmpty : ConnState := { subscribed_requests := [], joinedGroups := [] }

/-- Claim C4: a successful `subscribe_instance` records its request id under
the observer key, overwriting any prior value (afterwards the lookup yields
exactly this id and the table holds exactly one entry for the observer), and
every message a subsequently dispatched change event produces through
`handle_instance_change` carries exactly the request id recorded in the
table at dispatch time. -/
theorem C4_request_id_correlation (cenv : ConnEnv) (obs : ObserverState)
    (st : ConnState) (rid : String) (kw : Data) (st' : ConnState)
    (v : Option Data × Nat)
    (hs : subscribe_instance cenv obs st (some rid) kw = (st', Except.ok v)) :
    dictGet st'.subscribed_requests observerKey = some rid
    ∧ (dictCountKey st.subscribed_requests observerKey ≤ 1 →
        dictCountKey st'.subscribed_requests observerKey = 1)
    ∧ (∀ (denv : DispatchEnv) (msg : ChangeMessage) (m : Msg),
        m ∈ (handleInstanceChange denv st' msg).sent → msgReqId m = some rid) := by
  have htbl : st'.subscribed_requests
      = dictInsert st.subscribed_requests observerKey rid := by
    unfold subscribe_instance observerSubscribe at hs
    rcases hg : cenv.get_object kw with e | inst
    · simp only [hg] at hs
      exact absurd (congrArg Prod.snd hs) (by simp)
    · simp only [hg] at hs
      rcases hn : instanceGroupNames obs inst with e | names
      · simp only [hn] at hs
        exact absurd (congrArg Prod.snd hs) (by simp)
      · simp only [hn] at hs
        injection hs with h1 h2
        rw [← h1]
  refine ⟨?_, ?_, ?_⟩
  · rw [htbl]
    exact dictGet_insert_self _ _ _
  · intro hcount
    rw [htbl]
    exact dictCountKey_insert _ _ _ hcount
  · intro denv msg m hm
    have hget : dictGet st'.subscribed_requests observerKey = some rid := by
      rw [htbl]
      exact dictGet_insert_self _ _ _
    unfold handleInstanceChange at hm
    rw [hget] at hm
    exact handleObservedAction_sent_rid denv msg.action (some rid) msg.body m hm

/-- State after a successful subscribe with request id "r1". -/
def stAfterSub : ConnState :=
  { subscribed_requests := [("handle_instance_change", "r1")],
    joinedGroups := ["items-u1"] }

/-- Claim C4 witness: a concrete subscribe followed by a concrete dispatched
update event whose reply carries the recorded request id. -/
theorem C4_request_id_correlation_witness :
    dictGet stAfterSub.subscribed_requests observerKey = some "r1"
    ∧ dictCountKey stAfterSub.subscribed_requests observerKey = 1
    ∧ msgReqId (Msg.reply "update" (some "r1") [("k", "v")] 200) = some "r1" := by
  have h := C4_request_id_correlation cenvOk obsA stEmpty "r1" [] stAfterSub
    (none, 201) rfl
  exact ⟨h.1, h.2.1 (by decide),
    h.2.2 denvTuple ⟨"model.observer", "update", [("pk", "1")]⟩
      (Msg.reply "update" (some "r1") [("k", "v")] 200) (by decide)⟩

/-- A connection state holding a table entry for the observer but no group
membership (so the modelled leave step fails). -/
def stSubNoGroups : ConnState :=
  { subscribed_requests := [("handle_instance_change", "r1")],
    joinedGroups := [] }

/-- Claim C8 counterexample: an `unsubscribe_instance` call whose group-leave
step fails (raises) returns with the exception and the subscription-table
entry still present — the entry is not deleted unconditionally, refuting the
claim that it is removed after every call including ones whose leave step
failed. -/
theorem C8_counterexample :
    unsubscribe_instance cenvOk obsA stSubNoGroups (some "r1") []
      = (stSubNoGroups, Except.error Exc.notMember)
    ∧ dictGet stSubNoGroups.subscribed_requests observerKey = some "r1" :=
  ⟨rfl, rfl⟩

/-- Claim C8 (amended): `unsubscribe_instance` deletes the subscription-table
entry only when the group-leave call completes without raising: a successful
call leaves no entry for the observer, while a raising leave step makes the
call propagate the exception with the table untouched (the `del` statement
after the leave is skipped). -/
theorem C8_unsubscribe_table (cenv : ConnEnv) (obs : ObserverState)
    (st : ConnState) (rid : String) (kw : Data) :
    (∀ (st' : ConnState) (v : Option Data × Nat),
        dictCountKey st.subscribed_requests observerKey ≤ 1 →
        unsubscribe_instance cenv obs st (some rid) kw = (st', Except.ok v) →
        dictGet st'.subscribed_requests observerKey = none)
    ∧ (∀ (inst : Instance) (st₁ : ConnState) (e : Exc),
        cenv.get_object kw = Except.ok inst →
        observerUnsubscribe obs st inst = (st₁, some e) →
        unsubscribe_instance cenv obs st (some rid) kw
            = (st₁, Except.error e)
        ∧ st₁.subscribed_requests = st.subscribed_requests) := by
  constructor
  · intro st' v hcount hu
    unfold unsubscribe_instance at hu
    rcases hg : cenv.get_object kw with e | inst
    · simp only [hg] at hu
      exact absurd (congrArg Prod.snd hu) (by simp)
    · simp only [hg] at hu
      rcases ho : observerUnsubscribe obs st inst with ⟨st₁, oe⟩
      have htbl : st₁.subscribed_requests = st.subscribed_requests := by
        have h' := observerUnsubscribe_table obs st inst
        rw [ho] at h'
        exact h'
      rcases oe with _ | e
      · simp only [ho] at hu
        rcases hget : dictGet st₁.subscribed_requests observerKey with _ | r
        · simp only [hget] at hu
          exact absurd (congrArg Prod.snd hu) (by simp)
        · simp only [hget] at hu
          injection hu with h1 h2
          rw [← h1]
          have hc : dictCountKey st₁.subscribed_requests observerKey ≤ 1 := by
            rw [htbl]
            exact hcount
          exact dictGet_del_self _ _ hc
      · simp only [ho] at hu
        exact absurd (congrArg Prod.snd hu) (by simp)
  · intro inst st₁ e hg ho
    refine ⟨?_, ?_⟩
    · unfold unsubscribe_instance
      simp only [hg, ho]
    · have h' := observerUnsubscribe_table obs st inst
      rw [ho] at h'
      exact h'

/-- Claim C8 witness: a successful unsubscribe removes the entry; a failing
leave returns the exception with the table preserved. -/
theorem C8_unsubscribe_table_witness :
    dictGet (⟨[], []⟩ : ConnState).subscribed_requests observerKey = none
    ∧ (unsubscribe_instance cenvOk obsA stSubNoGroups (some "r1") []
          = (stSubNoGroups, Except.error Exc.notMember)
        ∧ stSubNoGroups.subscribed_requests
            = stSubNoGroups.subscribed_requests) :=
  ⟨(C8_unsubscribe_table cenvOk obsA stAfterSub "r1" []).1
      ⟨[], []⟩ (none, 204) (by decide) rfl,
   (C8_unsubscribe_table cenvOk obsA stSubNoGroups "r1" []).2 instA
      stSubNoGroups Exc.notMember rfl rfl⟩

/-- A subclass namespace declaring a queryset and its own prefix "gadgets"
but no serializer (the claim's concrete scenario). -/
def nsGadgets : ClassNamespace :=
  { queryset := some "Item", group_name_pfx := some (some "gadgets"),
    get_group_names := none, serializer_class := none, stream := none,
    observers := [] }

/-- A base class declaring prefix "items" and serializer "S1" and carrying
the inherited unbound `handle_instance_change` descriptor. -/
def baseItems : ClassAttrs :=
  { group_name_pfx := some (some "items"), get_group_names := none,
    serializer_class := some (some "S1"), stream := none,
    observers := ["handle_instance_change"] }

/-- Claim C1 counterexample: in the claim's own scenario — base declares
prefix "items" and serializer S1, subclass declares only prefix "gadgets" —
the observer found on the base is bound with the ancestor's prefix "items",
not the subclass's still-set "gadgets": the walk overwrites the prefix with
the ancestor's value even though the current value was set, refuting the
only-if-unset rule and the scenario's expected prefix. -/
theorem C1_counterexample :
    dictGet (metaclassNew nsGadgets [baseItems]) "handle_instance_change"
      = some ⟨"Item", some "items", none, some "S1", none⟩
    ∧ (some "items" : PyVal) ≠ some "gadgets" := by
  constructor
  · rfl
  · decide

/-- Claim C1 (amended): walking the bases, `prefix`, `group_name_func` and
`stream` are overwritten with the ancestor's value whenever the ancestor has
the attribute (the current value survives only when the ancestor lacks it),
while `serializer` is overwritten only by an ancestor's non-null value; a
descriptor found on the ancestor is bound with these post-walk values (so a
subclass declaring only its own prefix keeps it only for descriptors in its
own namespace, not for inherited ones when the ancestor also declares a
prefix). -/
theorem C1_binding_resolution (m : String) (ns : ClassNamespace)
    (b : ClassAttrs) (n : String) (hq : ns.queryset = some m)
    (hn : n ∈ b.observers) :
    dictGet (metaclassNew ns [b]) n
      = some ⟨m, (stepBase (startingInputs ns) b).pfx,
             (stepBase (startingInputs ns) b).gnf,
             (stepBase (startingInputs ns) b).ser,
             (stepBase (startingInputs ns) b).strm⟩
    ∧ (stepBase (startingInputs ns) b).pfx
        = b.group_name_pfx.getD (startingInputs ns).pfx
    ∧ (stepBase (startingInputs ns) b).gnf
        = b.get_group_names.getD (startingInputs ns).gnf
    ∧ (stepBase (startingInputs ns) b).strm
        = b.stream.getD (startingInputs ns).strm
    ∧ (∀ v : String, b.serializer_class = some (some v) →
        (stepBase (startingInputs ns) b).ser = some v)
    ∧ ((b.serializer_class = some none ∨ b.serializer_class = none) →
        (stepBase (startingInputs ns) b).ser = (startingInputs ns).ser) := by
  refine ⟨?_, rfl, rfl, rfl, ?_, ?_⟩
  · simp only [metaclassNew, hq, List.foldl]
    rw [bindAll_dictGet]
    simp [hn]
  · intro v hv
    simp [stepBase, hv]
  · intro hv
    rcases hv with hv | hv <;> simp [stepBase, hv]

/-- Claim C1 witness: the amended resolution evaluated on the concrete
scenario. -/
theorem C1_binding_resolution_witness :
    dictGet (metaclassNew nsGadgets [baseItems]) "handle_instance_change"
      = some ⟨"Item", (stepBase (startingInputs nsGadgets) baseItems).pfx,
             (stepBase (startingInputs nsGadgets) baseItems).gnf,
             (stepBase (startingInputs nsGadgets) baseItems).ser,
             (stepBase (startingInputs nsGadgets) baseItems).strm⟩ :=
  (C1_binding_resolution "Item" nsGadgets baseItems "handle_instance_change"
    rfl (by decide)).1

/-- Claim C3 counterexample: with no declared override, the default strategy
applied to an instance lacking a secondary identifier (uuid) raises
AttributeError rather than yielding the name built from the primary
identifier ("items-5"), refuting the secondary-or-primary fallback. -/
theorem C3_counterexample :
    instanceGroupNames obsA instNoUuid = Except.error Exc.attributeError
    ∧ instanceGroupNames obsA instNoUuid
        ≠ Except.ok ["items-5"] := by
  refine ⟨rfl, ?_⟩
  intro hc
  rw [show instanceGroupNames obsA instNoUuid
      = Except.error Exc.attributeError from rfl] at hc
  exact Except.noConfusion hc

/-- Claim C3 (amended): group-name computation uses the declared override
strategy when one exists, fully replacing the default; otherwise it yields
exactly one name, the observer's prefix joined with the instance's
secondary identifier (uuid), and raises AttributeError when the instance
has no uuid — there is no fallback to the primary identifier. -/
theorem C3_group_name_strategy (obs : ObserverState) (inst : Instance) :
    (∀ f, obs.group_names_func = some f →
        instanceGroupNames obs inst = Except.ok (f obs.group_name_pfx inst))
    ∧ (obs.group_names_func = none → ∀ u, inst.uuid = some u →
        instanceGroupNames obs inst
          = Except.ok [obs.group_name_pfx ++ "-" ++ u])
    ∧ (obs.group_names_func = none → inst.uuid = none →
        instanceGroupNames obs inst = Except.error Exc.attributeError) := by
  refine ⟨?_, ?_, ?_⟩
  · intro f hf
    simp [instanceGroupNames, hf]
  · intro hf u hu
    simp [instanceGroupNames, hf, hu]
  · intro hf hu
    simp [instanceGroupNames, hf, hu]

/-- A concrete observer with a declared group-name override. -/
def obsOverride : ObserverState :=
  { group_name_pfx := "items",
    group_names_func := some (fun _ _ => ["custom"]) }

/-- Claim C3 witness: the default single name on an instance with a uuid,
and a declared override fully replacing it. -/
theorem C3_group_name_strategy_witness :
    instanceGroupNames obsA instA = Except.ok ["items-u1"]
    ∧ instanceGroupNames obsOverride instA = Except.ok ["custom"] :=
  ⟨((C3_group_name_strategy obsA instA).2.1 rfl "u1" rfl).trans rfl,
   ((C3_group_name_strategy obsOverride instA).1
      (fun _ _ => ["custom"]) rfl).trans rfl⟩

/-- Claim C9: every invocation of `DeleteModelMixin.delete` fails — when the
entity lookup succeeds, with the unbound-local-name error raised while
evaluating the `get_serializer` call's arguments — so the operation never
deletes the instance and never returns the `(data, 200)` success. -/
theorem C9_delete_unbound_local (env : MixinEnv) (kw : Data) :
    (DeleteModelMixin_delete env kw).instanceDeleted = false
    ∧ exceptIsOk (DeleteModelMixin_delete env kw).result = false
    ∧ (∀ inst, env.get_object kw = Except.ok inst →
        DeleteModelMixin_delete env kw
          = ⟨Except.error Exc.unboundLocalError, false⟩) := by
  rcases h : env.get_object kw with e | inst
  · refine ⟨?_, ?_, ?_⟩
    · simp [DeleteModelMixin_delete, h]
    · simp [DeleteModelMixin_delete, h, exceptIsOk]
    · intro inst hi
      exact absurd hi (by simp)
  · refine ⟨?_, ?_, ?_⟩
    · simp [DeleteModelMixin_delete, h]
    · simp [DeleteModelMixin_delete, h, exceptIsOk]
    · intro inst' hi
      simp [DeleteModelMixin_delete, h]

/-- External collaborators for a concrete `delete` call whose lookup
succeeds. -/
def menvOk : MixinEnv :=
  { get_object := fun _ => Except.ok instA
    get_serializer := fun _ _ _ => Except.ok [] }

/-- Claim C9 witness at a concrete successful lookup. -/
theorem C9_delete_unbound_local_witness :
    DeleteModelMixin_delete menvOk [("pk", "1")]
      = ⟨Except.error Exc.unboundLocalError, false⟩ :=
  (C9_delete_unbound_local menvOk [("pk", "1")]).2.2 instA rfl
